import Mathlib

/-!
Shallow embedding of the matching/browse-filtering core of the dbucouple_bot
repository: the SQLite-backed user model (src/models/user_model.py over the
schema of src/database.py), the input validators (src/utils/validators.py),
the registration flow (src/handlers/start_handler.py), the like/match flow
(src/handlers/browse_handler.py) and the in-memory rate limiter
(src/utils/rate_limiter.py).

Tables are embedded as lists: `users` is the list of profile rows, and the
relation tables (`likes`, `matches`, `blocks`) are lists of id pairs, kept
duplicate-free by the insert-or-ignore embedding, mirroring the PRIMARY KEY
constraints of database.py.  `ORDER BY RANDOM() LIMIT 1` is embedded as
picking one element of the candidate row list by an arbitrary seed index.
-/

/-- A row of the `users` table (database.py, users schema). -/
structure User where
  user_id : Int
  name : String
  age : Int
  department : String
  bio : String
  photo_id : String
deriving DecidableEq, Repr

/-- The database state: the `users` table plus the relation tables used by
the matching core (`likes`, `matches`, `blocks`). -/
structure DB where
  users : List User
  likes : List (Int × Int)
  matchesTable : List (Int × Int)
  blocks : List (Int × Int)
deriving DecidableEq, Repr

/-- `ORDER BY RANDOM() LIMIT 1` over a candidate row list: an arbitrary seed
chooses one row; the result is `none` exactly when the candidate list is
empty. -/
def pick (l : List User) (seed : Nat) : Option User :=
  l.get? (seed % l.length)

/-- Candidate rows of `get_random_user` (user_model.py:51-86): all users
except `exclude_id`, and (when `exclude_blocked`) except rows `u` with a
`blocks` row `(exclude_id, u.user_id)`. -/
def random_user_candidates (db : DB) (exclude_id : Int) (exclude_blocked : Bool) : List User :=
  if exclude_blocked then
    db.users.filter (fun u =>
      u.user_id != exclude_id && !(db.blocks.contains (exclude_id, u.user_id)))
  else
    db.users.filter (fun u => u.user_id != exclude_id)

/-- `get_random_user` (user_model.py:51-86). -/
def get_random_user (db : DB) (exclude_id : Int) (exclude_blocked : Bool) (seed : Nat) :
    Option User :=
  pick (random_user_candidates db exclude_id exclude_blocked) seed

/-- `add_like` (user_model.py:89-111): `INSERT OR IGNORE INTO likes`, the
pair `(liker_id, liked_id)` being the primary key. -/
def add_like (db : DB) (liker_id liked_id : Int) : DB :=
  if db.likes.contains (liker_id, liked_id) then db
  else { db with likes := db.likes ++ [(liker_id, liked_id)] }

/-- `check_match` (user_model.py:114-134): a `SELECT` on the single directed
edge `liker_id = user2_id AND liked_id = user1_id`. -/
def check_match (db : DB) (user1_id user2_id : Int) : Bool :=
  db.likes.contains (user2_id, user1_id)

/-- `save_match` (user_model.py:211-233): `INSERT OR IGNORE INTO matches` of
the order-normalised pair `(min, max)`. -/
def save_match (db : DB) (user1_id user2_id : Int) : DB :=
  if db.matchesTable.contains (min user1_id user2_id, max user1_id user2_id) then db
  else { db with matchesTable := db.matchesTable ++ [(min user1_id user2_id, max user1_id user2_id)] }

/-- `get_user_matches` (user_model.py:178-208): rows `u` with
`likes (user_id, u)` and `likes (u, user_id)`, excluding self. -/
def get_user_matches (db : DB) (user_id : Int) : List User :=
  db.users.filter (fun u =>
    db.likes.contains (user_id, u.user_id) &&
    db.likes.contains (u.user_id, user_id) &&
    u.user_id != user_id)

/-- `get_users_who_liked_me` (user_model.py:236-263): rows `u` with
`likes (u, user_id)` and no reverse row `likes (user_id, u)`, excluding
self. -/
def get_users_who_liked_me (db : DB) (user_id : Int) : List User :=
  db.users.filter (fun u =>
    db.likes.contains (u.user_id, user_id) &&
    !(db.likes.contains (user_id, u.user_id)) &&
    u.user_id != user_id)

/-- `block_user` (user_model.py:266-287): `INSERT OR IGNORE INTO blocks`. -/
def block_user (db : DB) (blocker_id blocked_id : Int) : DB :=
  if db.blocks.contains (blocker_id, blocked_id) then db
  else { db with blocks := db.blocks ++ [(blocker_id, blocked_id)] }

/-- The like-button flow of browse_handler.py:166-191: `add_like`, then
`check_match` on the updated store, then `save_match` when matched; the
boolean is the reported matched flag. -/
def record_like (db : DB) (liker_id liked_id : Int) : DB × Bool :=
  let db1 := add_like db liker_id liked_id
  let matched := check_match db1 liker_id liked_id
  (if matched then save_match db1 liker_id liked_id else db1, matched)

/-- Prefix test on character lists, used to embed SQL `LIKE` pattern
containment. -/
def substr_at : List Char → List Char → Bool
  | [], _ => true
  | _ :: _, [] => false
  | c :: cs, d :: ds => c == d && substr_at cs ds

/-- Substring containment of `needle` in `hay` on character lists. -/
def has_substr : List Char → List Char → Bool
  | hay, needle =>
    if substr_at needle hay then true
    else
      match hay with
      | [] => false
      | _ :: t => has_substr t needle

/-- SQLite `department LIKE ?` with parameter pattern wrapped in wildcards:
substring containment, case-insensitive on ASCII letters (SQLite default
`LIKE`). -/
def like_match (hay needle : String) : Bool :=
  has_substr (hay.toList.map Char.toLower) (needle.toList.map Char.toLower)

/-- Candidate rows of `get_users_with_filters` (user_model.py:432-474): all
users except `exclude_id`, restricted by each supplied filter clause.  The
`department` clause is only added when the string is non-empty (Python
`if department:`); no blocks clause appears in this query. -/
def filter_candidates (db : DB) (exclude_id : Int)
    (min_age max_age : Option Int) (department : Option String) : List User :=
  db.users.filter (fun u =>
    u.user_id != exclude_id &&
    (match min_age with | some m => m ≤ u.age | none => true) &&
    (match max_age with | some m => u.age ≤ m | none => true) &&
    (match department with
     | some d => if d = "" then true else like_match u.department d
     | none => true))

/-- `get_users_with_filters` (user_model.py:432-474). -/
def get_users_with_filters (db : DB) (exclude_id : Int)
    (min_age max_age : Option Int) (department : Option String) (seed : Nat) :
    Option User :=
  pick (filter_candidates db exclude_id min_age max_age department) seed

/-- Python `str.strip()` on a character list: drop leading and trailing
whitespace. -/
def py_strip_chars (l : List Char) : List Char :=
  ((l.dropWhile Char.isWhitespace).reverse.dropWhile Char.isWhitespace).reverse

/-- Python `str.strip()`. -/
def py_strip (s : String) : String :=
  ⟨py_strip_chars s.toList⟩

/-- The numeric value of a decimal digit character. -/
def digit_val (c : Char) : Option Nat :=
  if c.isDigit then some (c.toNat - 48) else none

/-- Parse a non-empty all-digit character list as a natural number. -/
def parse_digits (l : List Char) : Option Nat :=
  if l = [] then none
  else
    l.foldl
      (fun acc c =>
        match acc, digit_val c with
        | some n, some d => some (n * 10 + d)
        | _, _ => none)
      (some 0)

/-- Python `int()` on an already-stripped character list: an optional sign
followed by at least one decimal digit; anything else raises `ValueError`
(`none` here). -/
def py_int_of_chars (l : List Char) : Option Int :=
  match l with
  | [] => none
  | c :: rest =>
    if c = '-' then (parse_digits rest).map (fun n => -(n : Int))
    else if c = '+' then (parse_digits rest).map (fun n => (n : Int))
    else (parse_digits l).map (fun n => (n : Int))

/-- `validate_age` (validators.py:5-21): parse the stripped string as an
integer and accept exactly the inclusive range 16..100, returning the parsed
age on success. -/
def validate_age (age_str : String) : Bool × Option Int :=
  match py_int_of_chars (py_strip_chars age_str.toList) with
  | some age => if 16 ≤ age ∧ age ≤ 100 then (true, some age) else (false, none)
  | none => (false, none)

/-- `validate_text_length` (validators.py:24-38): reject the empty string,
otherwise bound the stripped length inclusively. -/
def validate_text_length (text : String) (min_length max_length : Nat) : Bool :=
  if text.toList = [] then false
  else
    decide (min_length ≤ (py_strip_chars text.toList).length ∧
      (py_strip_chars text.toList).length ≤ max_length)

/-- `validate_name` (validators.py:41-51). -/
def validate_name (name : String) : Bool :=
  validate_text_length name 2 50

/-- `validate_bio` (validators.py:54-64). -/
def validate_bio (bio : String) : Bool :=
  validate_text_length bio 10 500

/-- `validate_department` (validators.py:67-77). -/
def validate_department (dept : String) : Bool :=
  validate_text_length dept 2 100

/-- The per-user registration step stored in `context.user_data['step']`
(start_handler.py). -/
inductive RegStep where
  | idle
  | name
  | age
  | department
  | bio
  | photo
deriving DecidableEq, Repr

/-- The partially collected registration fields stored in
`context.user_data` (start_handler.py). -/
structure RegData where
  name : Option String
  age : Option String
  department : Option String
  bio : Option String
deriving DecidableEq, Repr

/-- An incoming registration message: text, or a photo with a file id. -/
inductive RegInput where
  | text (s : String)
  | photo (file_id : String)
deriving DecidableEq, Repr

/-- The arguments of a `save_user` store write (user_model.py:15-48). -/
structure SaveCall where
  name : String
  age : Int
  department : String
  bio : String
  photo_id : String
deriving DecidableEq, Repr

/-- Empty registration data (`context.user_data.clear()`). -/
def RegData.empty : RegData := ⟨none, none, none, none⟩

/-- `handle_registration` (start_handler.py:96-233): one step of the
registration conversation.  Returns the new step, the new collected data and
the store write issued during this step (`some` exactly when `save_user` was
reached). -/
def handle_registration (step : RegStep) (data : RegData) (input : RegInput) :
    RegStep × RegData × Option SaveCall :=
  match step, input with
  | .photo, .photo fid =>
    match data.name, data.age, data.department, data.bio with
    | some nm, some age_str, some dept, some bio =>
      match validate_age age_str with
      | (true, some a) => (.idle, RegData.empty, some ⟨nm, a, dept, bio, fid⟩)
      | _ => (.idle, RegData.empty, none)
    | _, _, _, _ => (.idle, RegData.empty, none)
  | .name, .text s =>
    if validate_name s then (.age, { data with name := some (py_strip s) }, none)
    else (.name, data, none)
  | .age, .text s =>
    match validate_age s with
    | (true, some a) => (.department, { data with age := some (toString a) }, none)
    | _ => (.age, data, none)
  | .department, .text s =>
    if validate_department s then (.bio, { data with department := some (py_strip s) }, none)
    else (.department, data, none)
  | .bio, .text s =>
    if validate_bio s then (.photo, { data with bio := some (py_strip s) }, none)
    else (.bio, data, none)
  | _, _ => (step, data, none)

/-- The per-user state of `RateLimiter` (rate_limiter.py): the recorded
request timestamps and the optional ban expiry, both for one user. -/
structure RLState where
  requests : List Int
  banned : Option Int
deriving DecidableEq, Repr

/-- The outcome of one `is_allowed` call: allowed, denied while banned
(carrying the remaining seconds of the message), or denied at the limit
(carrying the ban duration of the message). -/
inductive RLOutcome where
  | allowed
  | denied_banned (remaining : Int)
  | denied_limit (ban_duration : Int)
deriving DecidableEq, Repr

/-- The list comprehension of rate_limiter.py:51-54: keep the timestamps
strictly newer than the cutoff. -/
def rl_prune (requests : List Int) (cutoff : Int) : List Int :=
  requests.filter (fun t => cutoff < t)

/-- Lines 49-64 of rate_limiter.py: prune, compare the count with the limit,
and either ban or record the request. -/
def rl_normal_check (s : RLState) (now : Int) (max_requests : Nat)
    (time_window ban_duration : Int) : RLOutcome × RLState :=
  let pruned := rl_prune s.requests (now - time_window)
  if max_requests ≤ pruned.length then
    (.denied_limit ban_duration, { requests := pruned, banned := some (now + ban_duration) })
  else
    (.allowed, { requests := pruned ++ [now], banned := s.banned })

/-- `RateLimiter.is_allowed` (rate_limiter.py:19-64): the ban check comes
first; pruning and the count check only run when the user is not currently
banned. -/
def is_allowed (s : RLState) (now : Int) (max_requests : Nat)
    (time_window ban_duration : Int) : RLOutcome × RLState :=
  match s.banned with
  | some ban_until =>
    if now < ban_until then
      (.denied_banned (ban_until - now), s)
    else
      rl_normal_check { s with banned := none } now max_requests time_window ban_duration
  | none => rl_normal_check s now max_requests time_window ban_duration

/-- The spec's narration of the same call (spec §4.4 order): prune first on
every call, then the ban check, then the count check. -/
def is_allowed_spec_order (s : RLState) (now : Int) (max_requests : Nat)
    (time_window ban_duration : Int) : RLOutcome × RLState :=
  let pruned := rl_prune s.requests (now - time_window)
  match s.banned with
  | some ban_until =>
    if now < ban_until then
      (.denied_banned (ban_until - now), { requests := pruned, banned := s.banned })
    else
      rl_normal_check { requests := pruned, banned := none } now max_requests time_window
        ban_duration
  | none => rl_normal_check { requests := pruned, banned := none } now max_requests time_window
      ban_duration

/-- Run `is_allowed` over a list of call times from a starting state,
returning the final state. -/
def rl_run_state (s : RLState) (times : List Int) (max_requests : Nat)
    (time_window ban_duration : Int) : RLState :=
  times.foldl (fun st t => (is_allowed st t max_requests time_window ban_duration).2) s

/-- Run `is_allowed` over a list of call times from the fresh state,
collecting the outcomes in order. -/
def rl_run (times : List Int) (max_requests : Nat) (time_window ban_duration : Int) :
    List RLOutcome :=
  (times.foldl
    (fun (acc : List RLOutcome × RLState) t =>
      let r := is_allowed acc.2 t max_requests time_window ban_duration
      (acc.1 ++ [r.1], r.2))
    ([], ⟨[], none⟩)).1

/-- A store handle that is either live or failing; the `error` case embeds a
raised `sqlite3` exception, which every `try/except` block in
user_model.py catches. -/
def Store : Type := Except Unit DB

/-- `check_match` as written (user_model.py:114-134): the `except` branch
returns `False`. -/
def check_match_r (st : Store) (user1_id user2_id : Int) : Bool :=
  match st with
  | .ok db => check_match db user1_id user2_id
  | .error _ => false

/-- `get_user_matches` as written (user_model.py:178-208): the `except`
branch returns `[]`. -/
def get_user_matches_r (st : Store) (user_id : Int) : List User :=
  match st with
  | .ok db => get_user_matches db user_id
  | .error _ => []

/-- `get_users_who_liked_me` as written (user_model.py:236-263): the
`except` branch returns `[]`. -/
def get_users_who_liked_me_r (st : Store) (user_id : Int) : List User :=
  match st with
  | .ok db => get_users_who_liked_me db user_id
  | .error _ => []

/-- `get_random_user` as written (user_model.py:51-86): the `except` branch
returns `None`. -/
def get_random_user_r (st : Store) (exclude_id : Int) (exclude_blocked : Bool) (seed : Nat) :
    Option User :=
  match st with
  | .ok db => get_random_user db exclude_id exclude_blocked seed
  | .error _ => none

/-- `add_like` as written (user_model.py:89-111): returns the success flag;
the `except` branch reports `False` and leaves the store unchanged. -/
def add_like_r (st : Store) (liker_id liked_id : Int) : Bool × Store :=
  match st with
  | .ok db => (true, .ok (add_like db liker_id liked_id))
  | .error e => (false, .error e)

/-! ## Shared lemmas about the store operations -/

theorem pick_mem (l : List User) (seed : Nat) (u : User) (h : pick l seed = some u) :
    u ∈ l :=
  List.get?_mem h

theorem pick_eq_none_iff (l : List User) (seed : Nat) : pick l seed = none ↔ l = [] := by
  unfold pick
  constructor
  · intro h
    rcases l with _ | ⟨a, t⟩
    · rfl
    · rw [List.get?_eq_none] at h
      have hlt : seed % (a :: t).length < (a :: t).length := Nat.mod_lt _ (by simp)
      exact absurd h (Nat.not_le.mpr hlt)
  · intro h; subst h; simp

theorem add_like_users (db : DB) (l k : Int) : (add_like db l k).users = db.users := by
  unfold add_like; split <;> rfl

theorem save_match_users (db : DB) (a b : Int) : (save_match db a b).users = db.users := by
  unfold save_match; split <;> rfl

theorem save_match_likes (db : DB) (a b : Int) : (save_match db a b).likes = db.likes := by
  unfold save_match; split <;> rfl

theorem add_like_contains_self (db : DB) (l k : Int) :
    (add_like db l k).likes.contains (l, k) = true := by
  unfold add_like
  split
  · assumption
  · simp

theorem add_like_contains_mono (db : DB) (l k : Int) (x : Int × Int)
    (h : db.likes.contains x = true) : (add_like db l k).likes.contains x = true := by
  unfold add_like
  split
  · exact h
  · simp_all

theorem record_like_users (db : DB) (l k : Int) : (record_like db l k).1.users = db.users := by
  unfold record_like
  simp only []
  split
  · rw [save_match_users]; exact add_like_users db l k
  · exact add_like_users db l k

theorem record_like_likes_contains_self (db : DB) (l k : Int) :
    (record_like db l k).1.likes.contains (l, k) = true := by
  unfold record_like
  simp only []
  split
  · rw [save_match_likes]; exact add_like_contains_self db l k
  · exact add_like_contains_self db l k

theorem record_like_likes_mono (db : DB) (l k : Int) (x : Int × Int)
    (h : db.likes.contains x = true) : (record_like db l k).1.likes.contains x = true := by
  unfold record_like
  simp only []
  split
  · rw [save_match_likes]; exact add_like_contains_mono db l k x h
  · exact add_like_contains_mono db l k x h

theorem record_like_snd (db : DB) (l k : Int) :
    (record_like db l k).2 = (add_like db l k).likes.contains (k, l) := rfl

theorem like_match_empty (s : String) : like_match s "" = true := by
  have h : ("" : String).toList.map Char.toLower = [] := rfl
  rw [like_match, h]
  generalize s.toList.map Char.toLower = l
  cases l with
  | nil => rfl
  | cons c t => rfl

/-! ## Concrete test fixtures -/

/-- A concrete profile row with id 1. -/
def cex_u1 : User := ⟨1, "a", 20, "CS", "bbbbbbbbbb", "p"⟩

/-- A concrete profile row with id 2. -/
def cex_u2 : User := ⟨2, "b", 30, "Computer Science", "cccccccccc", "q"⟩

/-- Two registered profiles, no likes, no blocks. -/
def cex_db : DB := ⟨[cex_u1, cex_u2], [], [], []⟩

/-- Two registered profiles where user 1 has blocked user 2. -/
def cex_db_blocked : DB := ⟨[cex_u1, cex_u2], [], [], [(1, 2)]⟩

/-! ## Claims -/

/-- C1 (amended): the unfiltered candidate query never returns the requester
and never returns a profile blocked by the requester; the filtered candidate
query never returns the requester, but it applies no block exclusion (see
`c1_counterexample`). -/
theorem c1_candidate_exclusion (db : DB) (exclude_id : Int) (seed : Nat) :
    (∀ u, get_random_user db exclude_id true seed = some u →
       u.user_id ≠ exclude_id ∧ db.blocks.contains (exclude_id, u.user_id) = false) ∧
    (∀ mi ma dep u, get_users_with_filters db exclude_id mi ma dep seed = some u →
       u.user_id ≠ exclude_id) := by
  constructor
  · intro u h
    have hm := pick_mem _ _ _ h
    simp [random_user_candidates] at hm
    refine ⟨hm.2.1, ?_⟩
    simpa using hm.2.2
  · intro mi ma dep u h
    have hm := pick_mem _ _ _ h
    rw [filter_candidates, List.mem_filter] at hm
    obtain ⟨-, hp⟩ := hm
    simp only [Bool.and_eq_true] at hp
    simpa using hp.1.1.1

/-- C1 counterexample: with user 1 having blocked user 2, the filtered path
returns the blocked profile 2 to requester 1, while the unfiltered path
correctly returns nothing. -/
theorem c1_counterexample :
    get_users_with_filters cex_db_blocked 1 none none none 0 = some cex_u2 ∧
    ((1 : Int), (2 : Int)) ∈ cex_db_blocked.blocks ∧
    get_random_user cex_db_blocked 1 true 0 = none := by
  refine ⟨rfl, by decide, rfl⟩

/-- C1 witness: instantiating the amended theorem on a concrete store where
both paths return profile 2 to requester 1. -/
theorem c1_witness :
    cex_u2.user_id ≠ 1 ∧ cex_db.blocks.contains (1, cex_u2.user_id) = false ∧
    cex_u2.user_id ≠ 1 :=
  ⟨((c1_candidate_exclusion cex_db 1 0).1 cex_u2 rfl).1,
   ((c1_candidate_exclusion cex_db 1 0).1 cex_u2 rfl).2,
   (c1_candidate_exclusion cex_db 1 0).2 none none none cex_u2 rfl⟩

/-- C2 (amended): for all distinct registered profiles A and B, liking A→B
then B→A makes the second call report matched, after which B is in the match
list of A and A is in the match list of B. -/
theorem c2_mutual_like_matches (db : DB) (a b : User)
    (ha : a ∈ db.users) (hb : b ∈ db.users) (hne : a.user_id ≠ b.user_id) :
    (record_like (record_like db a.user_id b.user_id).1 b.user_id a.user_id).2 = true ∧
    b ∈ get_user_matches
        (record_like (record_like db a.user_id b.user_id).1 b.user_id a.user_id).1 a.user_id ∧
    a ∈ get_user_matches
        (record_like (record_like db a.user_id b.user_id).1 b.user_id a.user_id).1 b.user_id := by
  set db1 := (record_like db a.user_id b.user_id).1 with hdb1
  have h_ab_db1 : db1.likes.contains (a.user_id, b.user_id) = true :=
    record_like_likes_contains_self db a.user_id b.user_id
  set db2 := (record_like db1 b.user_id a.user_id).1 with hdb2
  have h_ab : db2.likes.contains (a.user_id, b.user_id) = true :=
    record_like_likes_mono db1 b.user_id a.user_id _ h_ab_db1
  have h_ba : db2.likes.contains (b.user_id, a.user_id) = true :=
    record_like_likes_contains_self db1 b.user_id a.user_id
  have husers : db2.users = db.users := by
    rw [hdb2, record_like_users, hdb1, record_like_users]
  simp at h_ab h_ba
  refine ⟨?_, ?_, ?_⟩
  · rw [record_like_snd]
    exact add_like_contains_mono db1 b.user_id a.user_id _ h_ab_db1
  · rw [get_user_matches, List.mem_filter]
    refine ⟨by rw [husers]; exact hb, ?_⟩
    simp [h_ab, h_ba, bne_iff_ne, Ne.symm hne]
  · rw [get_user_matches, List.mem_filter]
    refine ⟨by rw [husers]; exact ha, ?_⟩
    simp [h_ab, h_ba, bne_iff_ne, hne]

/-- C2 counterexample: with A = B the second call still reports matched=true
but the match list of A does not contain A, so the claim fails when the two
profiles coincide. -/
theorem c2_counterexample :
    (record_like (record_like (DB.mk [cex_u1] [] [] []) 1 1).1 1 1).2 = true ∧
    cex_u1 ∉ get_user_matches
        (record_like (record_like (DB.mk [cex_u1] [] [] []) 1 1).1 1 1).1 1 := by
  decide

/-- C2 witness: the amended theorem applied to concrete distinct profiles 1
and 2. -/
theorem c2_witness :
    (record_like (record_like cex_db 1 2).1 2 1).2 = true ∧
    cex_u2 ∈ get_user_matches (record_like (record_like cex_db 1 2).1 2 1).1 1 ∧
    cex_u1 ∈ get_user_matches (record_like (record_like cex_db 1 2).1 2 1).1 2 :=
  c2_mutual_like_matches cex_db cex_u1 cex_u2 (by decide) (by decide) (by decide)

/-- C3 (amended): `check_match(a, b)` returns true exactly when the single
directed edge Like(b→a) exists; it does not consult Like(a→b), and for a ≠ b
inserting Like(a→b) leaves its result unchanged. -/
theorem c3_check_match_one_direction (db : DB) (a b : Int) :
    (check_match db a b = true ↔ (b, a) ∈ db.likes) ∧
    (a ≠ b → check_match (add_like db a b) a b = check_match db a b) := by
  constructor
  · simp [check_match]
  · intro hne
    unfold check_match add_like
    split
    · rfl
    · cases hc : db.likes.contains (b, a) <;> simp_all

/-- C3 counterexample: with only the edge Like(2→1) present, `check_match(1, 2)`
already reports true although Like(1→2) does not exist, refuting the
both-directions reading. -/
theorem c3_counterexample :
    check_match (DB.mk [] [(2, 1)] [] []) 1 2 = true ∧
    ((1 : Int), (2 : Int)) ∉ (DB.mk [] [(2, 1)] [] []).likes := by
  decide

/-- C3 witness: the amended theorem applied at a = 1, b = 2 on a concrete
store. -/
theorem c3_witness :
    check_match (add_like (DB.mk [] [(2, 1)] [] []) 1 2) 1 2 =
      check_match (DB.mk [] [(2, 1)] [] []) 1 2 :=
  (c3_check_match_one_direction (DB.mk [] [(2, 1)] [] []) 1 2).2 (by decide)

/-- C4: `add_like` is idempotent on the likes table: inserting the same
directed edge twice leaves the store, and in particular the cardinality of
the likes table, identical to inserting it once. -/
theorem c4_add_like_idempotent (db : DB) (liker_id liked_id : Int) :
    add_like (add_like db liker_id liked_id) liker_id liked_id =
      add_like db liker_id liked_id ∧
    (add_like (add_like db liker_id liked_id) liker_id liked_id).likes.length =
      (add_like db liker_id liked_id).likes.length := by
  have h : (add_like db liker_id liked_id).likes.contains (liker_id, liked_id) = true :=
    add_like_contains_self db liker_id liked_id
  have heq : add_like (add_like db liker_id liked_id) liker_id liked_id =
      add_like db liker_id liked_id := by
    conv_lhs => rw [add_like]
    rw [h]
    simp
  exact ⟨heq, by rw [heq]⟩

/-- C5: for every store state and every user, the pending-likers list and the
matches list are disjoint: no profile row appears in both. -/
theorem c5_likers_matches_disjoint (db : DB) (user_id : Int) :
    List.Disjoint (get_users_who_liked_me db user_id) (get_user_matches db user_id) := by
  intro u h1 h2
  rw [get_users_who_liked_me, List.mem_filter] at h1
  rw [get_user_matches, List.mem_filter] at h2
  simp at h1 h2
  tauto

theorem rl_prune_idem (l : List Int) (c : Int) :
    rl_prune (rl_prune l c) c = rl_prune l c := by
  simp [rl_prune, List.filter_filter]

theorem rl_normal_check_pruned (l : List Int) (bb : Option Int) (now : Int)
    (maxr : Nat) (w band : Int) :
    rl_normal_check ⟨rl_prune l (now - w), bb⟩ now maxr w band =
      rl_normal_check ⟨l, bb⟩ now maxr w band := by
  unfold rl_normal_check
  simp only [rl_prune_idem]

/-- C6: the implemented `is_allowed` call is observationally equal to the
claim's narration (prune, then ban check with remaining seconds and expiry
clearing, then limit check that bans, else record and allow): on every state
and call the outcomes agree, the stored bans agree and the stored request
lists agree up to the pruning the next call performs; and the concrete
scenario with max_requests=3, window=60, ban=300 allows three calls, denies
the fourth, and allows again once the ban has elapsed. -/
theorem c6_rate_limiter_behavior : (∀ s now maxr w band,
    (is_allowed s now maxr w band).1 = (is_allowed_spec_order s now maxr w band).1 ∧
    (is_allowed s now maxr w band).2.banned =
      (is_allowed_spec_order s now maxr w band).2.banned ∧
    rl_prune (is_allowed s now maxr w band).2.requests (now - w) =
      rl_prune (is_allowed_spec_order s now maxr w band).2.requests (now - w)) ∧
    rl_run [0, 1, 2, 3, 303] 3 60 300 =
      [.allowed, .allowed, .allowed, .denied_limit 300, .allowed] := by
  constructor
  · intro s now maxr w band
    rcases s with ⟨reqs, bb⟩
    cases bb with
    | none =>
      unfold is_allowed is_allowed_spec_order
      dsimp only
      rw [rl_normal_check_pruned reqs none now maxr w band]
      exact ⟨rfl, rfl, rfl⟩
    | some bu =>
      unfold is_allowed is_allowed_spec_order
      dsimp only
      by_cases hlt : now < bu
      · simp only [if_pos hlt]
        refine ⟨?_, ?_, ?_⟩
        · trivial
        · trivial
        · exact (rl_prune_idem reqs (now - w)).symm
      · simp only [if_neg hlt]
        rw [rl_normal_check_pruned reqs none now maxr w band]
        exact ⟨rfl, rfl, rfl⟩
  · rfl

/-- C7: when the filtered query returns a row, that row satisfies every
supplied filter (inclusive age bounds, substring department match), and the
query returns nothing exactly when the filtered candidate set is empty — no
fallback to unfiltered results. -/
theorem c7_filter_correctness (db : DB) (exclude_id : Int)
    (mi ma : Option Int) (dep : Option String) (seed : Nat) :
    (∀ u, get_users_with_filters db exclude_id mi ma dep seed = some u →
       (∀ m, mi = some m → m ≤ u.age) ∧
       (∀ m, ma = some m → u.age ≤ m) ∧
       (∀ d, dep = some d → like_match u.department d = true)) ∧
    (get_users_with_filters db exclude_id mi ma dep seed = none ↔
       filter_candidates db exclude_id mi ma dep = []) := by
  constructor
  · intro u h
    have hm := pick_mem _ _ _ h
    rw [filter_candidates, List.mem_filter] at hm
    obtain ⟨-, hp⟩ := hm
    simp only [Bool.and_eq_true] at hp
    obtain ⟨⟨⟨-, h1⟩, h2⟩, h3⟩ := hp
    refine ⟨?_, ?_, ?_⟩
    · intro m hmi; subst hmi; simpa using h1
    · intro m hma; subst hma; simpa using h2
    · intro d hd
      subst hd
      by_cases hde : d = ""
      · subst hde; exact like_match_empty _
      · simpa [hde] using h3
  · exact pick_eq_none_iff _ _

/-- C7 witness: on a concrete store the filtered query returns profile 2,
whose age 30 lies in the supplied [25, 35] range and whose department
"Computer Science" contains the pattern "science" as a proper substring
(containment, not equality). -/
theorem c7_witness :
    (25 : Int) ≤ cex_u2.age ∧ cex_u2.age ≤ (35 : Int) ∧
    like_match cex_u2.department "science" = true := by
  have h := (c7_filter_correctness cex_db 1 (some 25) (some 35) (some "science") 0).1
    cex_u2 rfl
  exact ⟨h.1 25 rfl, h.2.1 35 rfl, h.2.2 "science" rfl⟩

/-- C8: the registration validators enforce the documented boundaries (age
15 rejected, 16 accepted; parsed ages accepted exactly in [16, 100]; bio of
stripped length 9 rejected, 10 accepted, accepted exactly in [10, 500]), and
invalid age or bio input is rejected by the registration handler with no
store write issued. -/
theorem c8_registration_validation :
    ((validate_age "15").1 = false ∧ (validate_age "16").1 = true ∧
     validate_bio "abcdefghi" = false ∧ validate_bio "abcdefghij" = true) ∧
    (∀ s a, py_int_of_chars (py_strip_chars s.toList) = some a →
       ((validate_age s).1 = true ↔ 16 ≤ a ∧ a ≤ 100)) ∧
    (∀ s, s.toList ≠ [] →
       (validate_bio s = true ↔
         10 ≤ (py_strip_chars s.toList).length ∧ (py_strip_chars s.toList).length ≤ 500)) ∧
    (∀ data s, (validate_age s).1 = false →
       handle_registration .age data (.text s) = (.age, data, none)) ∧
    (∀ data s, validate_bio s = false →
       handle_registration .bio data (.text s) = (.bio, data, none)) ∧
    (∀ nm age_str dept bio fid, (validate_age age_str).1 = false →
       (handle_registration .photo ⟨some nm, some age_str, some dept, some bio⟩
         (.photo fid)).2.2 = none) := by
  refine ⟨by decide, ?_, ?_, ?_, ?_, ?_⟩
  · intro s a h
    rw [validate_age, h]
    dsimp only
    split
    · rename_i hc; simp [hc]
    · rename_i hc; simp [hc]
  · intro s hne
    rw [validate_bio, validate_text_length, if_neg hne]
    simp
  · intro data s h
    rw [handle_registration]
    rcases hv : validate_age s with ⟨b, oa⟩
    rw [hv] at h
    simp at h
    subst h
    cases oa <;> rfl
  · intro data s h
    rw [handle_registration, h]
    rfl
  · intro nm age_str dept bio fid h
    rw [handle_registration]
    dsimp only
    rcases hv : validate_age age_str with ⟨b, oa⟩
    rw [hv] at h
    simp at h
    subst h
    cases oa <;> rfl

/-- C8 witness: the boundary characterisation applied at "16", and the
handler applied to the out-of-range age "15", a 9-character bio, and a
stored invalid age at the photo step, each issuing no store write. -/
theorem c8_witness :
    ((validate_age "16").1 = true ↔ 16 ≤ (16 : Int) ∧ (16 : Int) ≤ 100) ∧
    handle_registration .age RegData.empty (.text "15") = (.age, RegData.empty, none) ∧
    handle_registration .bio RegData.empty (.text "short bio") = (.bio, RegData.empty, none) ∧
    (handle_registration .photo ⟨some "x", some "101", some "CS", some "abcdefghij"⟩
      (.photo "f")).2.2 = none :=
  ⟨c8_registration_validation.2.1 "16" 16 (by decide),
   c8_registration_validation.2.2.2.1 RegData.empty "15" (by decide),
   c8_registration_validation.2.2.2.2.1 RegData.empty "short bio" (by decide),
   c8_registration_validation.2.2.2.2.2 "x" "101" "CS" "abcdefghij" "f" (by decide)⟩

/-- C9 (amended): the write path distinguishes storage failure (`add_like`
reports False on a failing store, True on a live one), but the query
functions catch storage failures and return exactly the ordinary no-match or
empty-success values: False, [], and None. -/
theorem c9_failure_defaults :
    (∀ e user1_id user2_id, check_match_r (Except.error e) user1_id user2_id = false) ∧
    (∀ e user_id, get_user_matches_r (Except.error e) user_id = []) ∧
    (∀ e user_id, get_users_who_liked_me_r (Except.error e) user_id = []) ∧
    (∀ e exclude_id exclude_blocked seed,
       get_random_user_r (Except.error e) exclude_id exclude_blocked seed = none) ∧
    (∀ e liker_id liked_id, (add_like_r (Except.error e) liker_id liked_id).1 = false) ∧
    (∀ db liker_id liked_id, (add_like_r (Except.ok db) liker_id liked_id).1 = true) :=
  ⟨fun _ _ _ => rfl, fun _ _ => rfl, fun _ _ => rfl, fun _ _ _ _ => rfl,
   fun _ _ _ => rfl, fun _ _ _ => rfl⟩

/-- C9 counterexample: a storage failure during the mutual-like check, the
match-list query and the candidate query is returned to the caller as
exactly the same value as an ordinary empty-store success, so the caller
cannot distinguish the failure. -/
theorem c9_counterexample :
    check_match_r (Except.error ()) 1 2 = check_match_r (Except.ok (DB.mk [] [] [] [])) 1 2 ∧
    get_user_matches_r (Except.error ()) 1 =
      get_user_matches_r (Except.ok (DB.mk [] [] [] [])) 1 ∧
    get_random_user_r (Except.error ()) 1 true 0 =
      get_random_user_r (Except.ok (DB.mk [] [] [] [])) 1 true 0 :=
  ⟨rfl, rfl, rfl⟩

theorem rl_step_bound (maxr : Nat) (w band : Int) (s : RLState) (now : Int)
    (hs : s.requests.length ≤ maxr) :
    (is_allowed s now maxr w band).2.requests.length ≤ maxr := by
  rcases s with ⟨reqs, bb⟩
  have hpr : (rl_prune reqs (now - w)).length ≤ reqs.length :=
    List.length_filter_le _ _
  cases bb with
  | none =>
    rw [is_allowed]
    dsimp only
    rw [rl_normal_check]
    dsimp only
    split
    · exact le_trans hpr hs
    · rename_i hlt
      simp only [List.length_append, List.length_singleton]
      omega
  | some bu =>
    rw [is_allowed]
    dsimp only
    by_cases hlt : now < bu
    · rw [if_pos hlt]
      exact hs
    · rw [if_neg hlt]
      rw [rl_normal_check]
      dsimp only
      split
      · exact le_trans hpr hs
      · rename_i h2
        simp only [List.length_append, List.length_singleton]
        omega

theorem rl_run_state_bound (maxr : Nat) (w band : Int) (times : List Int) (s : RLState)
    (hs : s.requests.length ≤ maxr) :
    (rl_run_state s times maxr w band).requests.length ≤ maxr := by
  induction times generalizing s with
  | nil => exact hs
  | cons t ts ih =>
    rw [rl_run_state, List.foldl_cons]
    exact ih _ (rl_step_bound maxr w band s t hs)

/-- C10: a denied `is_allowed` call never appends a timestamp (the stored
list after the call is a sublist of the list before it), and starting from
the fresh state any call sequence leaves at most max_requests stored
timestamps for the user. -/
theorem c10_denied_never_appends (maxr : Nat) (w band : Int) :
    (∀ s now, (is_allowed s now maxr w band).1 ≠ RLOutcome.allowed →
       List.Sublist (is_allowed s now maxr w band).2.requests s.requests) ∧
    (∀ times, (rl_run_state ⟨[], none⟩ times maxr w band).requests.length ≤ maxr) := by
  constructor
  · intro s now hden
    rcases s with ⟨reqs, bb⟩
    cases bb with
    | none =>
      rw [is_allowed] at hden ⊢
      dsimp only at hden ⊢
      rw [rl_normal_check] at hden ⊢
      dsimp only at hden ⊢
      by_cases hc : maxr ≤ (rl_prune reqs (now - w)).length
      · rw [if_pos hc]
        exact List.filter_sublist _
      · rw [if_neg hc] at hden
        exact absurd rfl hden
    | some bu =>
      rw [is_allowed] at hden ⊢
      dsimp only at hden ⊢
      by_cases hlt : now < bu
      · rw [if_pos hlt]
      · rw [if_neg hlt] at hden ⊢
        rw [rl_normal_check] at hden ⊢
        dsimp only at hden ⊢
        by_cases hc : maxr ≤ (rl_prune reqs (now - w)).length
        · rw [if_pos hc]
          exact List.filter_sublist _
        · rw [if_neg hc] at hden
          exact absurd rfl hden
  · intro times
    exact rl_run_state_bound maxr w band times ⟨[], none⟩ (Nat.zero_le _)

/-- C10 witness: a concrete denied call (three stored timestamps, limit 3)
whose resulting list is a sublist of the old one, and a concrete six-call
sequence whose final stored list holds at most 3 timestamps. -/
theorem c10_witness :
    List.Sublist (is_allowed ⟨[0, 1, 2], none⟩ 3 3 60 300).2.requests [0, 1, 2] ∧
    (rl_run_state ⟨[], none⟩ [0, 1, 2, 3, 3, 3] 3 60 300).requests.length ≤ 3 :=
  ⟨(c10_denied_never_appends 3 60 300).1 ⟨[0, 1, 2], none⟩ 3 (by decide),
   (c10_denied_never_appends 3 60 300).2 [0, 1, 2, 3, 3, 3]⟩
